import Mathlib

/-
Verification of the IT-asset ELK pipeline (index_data.py, transform_data.py).

The two scripts drive an Elasticsearch cluster:
  * index_data.py bulk-loads CSV rows into a source index, using the trimmed
    hostname as the document `_id` when it is non-empty.
  * transform_data.py provisions a destination index with an explicit keyword
    mapping, reindexes source -> destination, runs an `_update_by_query`
    Painless script deriving `risk_level` and `system_age_years`, and finally
    runs a `_delete_by_query` removing documents with no `hostname` value or
    with `operating_system_provider.keyword` equal to "Unknown".

We embed the documents as association lists of field name / JSON-ish value,
the Painless script as a pure document transform, and the two queries with
Elasticsearch's documented semantics: an `exists` query matches documents
whose field holds a non-null indexed value (an empty string is indexed, hence
"exists"), and a `term` query on a field that is not present in the index
mapping matches no documents. Both scripts map
`operating_system_installation_date` as a `date` field (formats
`yyyy-MM-dd||strict_date_optional_time||epoch_millis`, no `ignore_malformed`),
so the store rejects at index time any document whose date value parses under
none of those formats; the full-pipeline model applies that validation.
-/

set_option autoImplicit false

namespace ItAssets

/-- A JSON-ish field value as stored in a document `_source`: a string, an
integer, or JSON null. -/
inductive Value where
  | str : String → Value
  | int : Int → Value
  | null : Value
deriving DecidableEq, Repr

/-- A document `_source`: an association list from field names to values.
Lookup returns the first binding of a key. -/
abbrev Doc := List (String × Value)

/-- First-match lookup in an association list. -/
def listGet {α : Type} : List (String × α) → String → Option α
  | [], _ => none
  | (k', v) :: rest, k => if k' = k then some v else listGet rest k

/-- Replace the value at the first binding of `k`, or append a fresh binding
when `k` is absent (the effect of `ctx._source.field = v` in Painless). -/
def listSet {α : Type} : List (String × α) → String → α → List (String × α)
  | [], k, v => [(k, v)]
  | (k', v') :: rest, k, v =>
      if k' = k then (k, v) :: rest else (k', v') :: listSet rest k v

def Doc.get (d : Doc) (k : String) : Option Value := listGet d k

def Doc.set (d : Doc) (k : String) (v : Value) : Doc := listSet d k v

/-- Painless `toString()` on a non-null value: strings are themselves and
integers print in decimal (Java `Long/Integer.toString`). -/
def valueToString : Value → String
  | .str s => s
  | .int n => toString n
  | .null => "null"

/-- Java `String.toLowerCase()` (default locale, restricted to the ASCII
vocabulary this pipeline compares against): lowercase every character. -/
def strLower (s : String) : String := String.mk (s.toList.map Char.toLower)

/-- Python `str.strip()`: remove whitespace from both ends. -/
def strTrim (s : String) : String :=
  String.mk (((s.toList.dropWhile Char.isWhitespace).reverse.dropWhile
    Char.isWhitespace).reverse)

/-- The `risk_level` half of the `enrich_fields` Painless script: start from
"Low"; if the document contains `operating_system_lifecycle_status` with a
non-null value whose string form lowercases to "eol" or "eos", use "High". -/
def riskLevel (d : Doc) : String :=
  match Doc.get d "operating_system_lifecycle_status" with
  | some v =>
      if v = Value.null then "Low"
      else
        let s := strLower (valueToString v)
        if s = "eol" ∨ s = "eos" then "High" else "Low"
  | none => "Low"

/-- Value of a base-10 digit list (the caller has checked every character is a
digit). -/
def digitsToNat (cs : List Char) : Nat :=
  cs.foldl (fun a c => a * 10 + (c.toNat - 48)) 0

/-- Java `Integer.parseInt` restricted to the short strings this pipeline
feeds it (at most four characters, so overflow cannot occur): an optional
sign followed by at least one decimal digit; anything else throws, which we
render as `none`. -/
def parseIntJava (s : String) : Option Int :=
  match s.toList with
  | [] => none
  | '-' :: rest =>
      if rest ≠ [] ∧ rest.all Char.isDigit then some (-(digitsToNat rest : Int)) else none
  | '+' :: rest =>
      if rest ≠ [] ∧ rest.all Char.isDigit then some ((digitsToNat rest : Int)) else none
  | cs =>
      if cs.all Char.isDigit then some ((digitsToNat cs : Int)) else none

/-- The script's year extraction: `Integer.parseInt(ds.substring(0, 4))`.
`substring(0, 4)` throws when the string has fewer than four characters;
both that and a parse failure surface as `none` (the script catches the
exception). -/
def yearOfDateString (s : String) : Option Int :=
  if s.length < 4 then none else parseIntJava (s.take 4)

/-- The `system_age_years` half of the `enrich_fields` Painless script:
`ctx._source.get('operating_system_installation_date')` yields null when the
field is absent or null; if the value is null or equal to the string
"Unknown" the age is null; otherwise the first four characters of its string
form are parsed as the installation year, the difference `now_year - year`
is clamped to be non-negative, and any extraction error yields null. -/
def systemAgeValue (nowYear : Int) (d : Doc) : Value :=
  let dv := (Doc.get d "operating_system_installation_date").getD Value.null
  if dv = Value.null ∨ dv = Value.str "Unknown" then Value.null
  else
    match yearOfDateString (valueToString dv) with
    | some installYear =>
        Value.int (if nowYear - installYear < 0 then 0 else nowYear - installYear)
    | none => Value.null

/-- One application of the `enrich_fields` update script to a document:
write `risk_level`, then compute and write `system_age_years` (the script
assigns `risk_level` before reading the installation date). `nowYear` is the
`params.now_year` value, resolved once per stage invocation. -/
def enrichDoc (nowYear : Int) (d : Doc) : Doc :=
  let d1 := Doc.set d "risk_level" (Value.str (riskLevel d))
  Doc.set d1 "system_age_years" (systemAgeValue nowYear d1)

/-- Elasticsearch document identity: an explicit `_id` string or a
server-assigned identifier (modelled by a counter). -/
inductive DocId where
  | named : String → DocId
  | auto : Nat → DocId
deriving DecidableEq, Repr

/-- An index's documents, in insertion order. -/
abbrev Collection := List (DocId × Doc)

/-- The fields explicitly mapped by `ensure_dest_index` (and identically by
`ensure_index` in the loader). `operating_system_provider` is mapped directly
as `keyword`; no multi-field `operating_system_provider.keyword` subfield
exists, and dynamic mapping never creates one because the parent field is
already explicitly mapped. -/
def destMappedFields : List String :=
  ["hostname", "country", "operating_system", "operating_system_provider",
   "operating_system_lifecycle_status", "operating_system_installation_date",
   "risk_level", "system_age_years"]

/-- Elasticsearch `exists` query against field `f`: matches when `f` is a
mapped field and the document holds a non-null value for it. An empty string
is an indexed keyword value, so a document with `hostname = ""` matches
`exists(hostname)`. -/
def fieldExists (mapped : List String) (d : Doc) (f : String) : Bool :=
  decide (f ∈ mapped) &&
    (match Doc.get d f with
     | some v => decide (v ≠ Value.null)
     | none => false)

/-- Elasticsearch `term` query on a keyword field `f`: matches when `f` is a
mapped field and the document's value for it is exactly the given string. A
term query on a field absent from the mapping matches no documents. -/
def termMatches (mapped : List String) (d : Doc) (f : String) (needle : String) : Bool :=
  decide (f ∈ mapped) &&
    (match Doc.get d f with
     | some (Value.str s) => decide (s = needle)
     | _ => false)

/-- The `delete_bad_records` query predicate: a `bool` query with
`minimum_should_match: 1` over (a) `must_not exists(hostname)` and (b)
`term(operating_system_provider.keyword = "Unknown")`. -/
def deleteMatches (mapped : List String) (d : Doc) : Bool :=
  !(fieldExists mapped d "hostname") ||
    termMatches mapped d "operating_system_provider.keyword" "Unknown"

/-- `enrich_fields` at collection level: the `_update_by_query` with a
`match_all` query applies the script to every document in place. -/
def enrich_fields (nowYear : Int) (coll : Collection) : Collection :=
  coll.map (fun p => (p.1, enrichDoc nowYear p.2))

/-- `delete_bad_records` at collection level: `_delete_by_query` removes
every document matching the predicate. -/
def delete_bad_records (mapped : List String) (coll : Collection) : Collection :=
  coll.filter (fun p => !deleteMatches mapped p.2)

/-- Indexing one document under an explicit id (`_op_type: "index"`):
replace the existing document with that id, or append a new one. -/
def indexDoc (coll : Collection) (i : DocId) (d : Doc) : Collection :=
  if coll.any (fun p => decide (p.1 = i)) then
    coll.map (fun p => if p.1 = i then (i, d) else p)
  else coll ++ [(i, d)]

/-- A raw CSV row: `csv.DictReader` yields every value as a string. -/
abbrev Row := List (String × String)

/-- A row ingested verbatim as a document `_source`. -/
def rowToDoc (r : Row) : Doc := r.map (fun p => (p.1, Value.str p.2))

/-- The `_id` chosen by `actions_from_rows`:
`(row.get("hostname") or "").strip() or None` — the trimmed hostname when it
is non-empty, otherwise no id (the server assigns one). -/
def docIdOf (row : Row) : Option String :=
  let t := strTrim ((listGet row "hostname").getD "")
  if t = "" then none else some t

/-- State of a bulk load: documents indexed so far and the next
server-assigned identifier. -/
structure LoadState where
  coll : Collection
  nextAuto : Nat
deriving Repr

/-- Applying one bulk `index` action produced by `actions_from_rows`. -/
def indexAction (st : LoadState) (row : Row) : LoadState :=
  match docIdOf row with
  | some i => { st with coll := indexDoc st.coll (DocId.named i) (rowToDoc row) }
  | none =>
      { coll := st.coll ++ [(DocId.auto st.nextAuto, rowToDoc row)],
        nextAuto := st.nextAuto + 1 }

/-- `helpers.bulk` over `actions_from_rows(rows)`: the actions are applied in
row order. -/
def bulkLoad (st : LoadState) (rows : List Row) : LoadState :=
  rows.foldl indexAction st

def emptyState : LoadState := ⟨[], 0⟩

/-- The `reindex` call: copy every source document (with its `_id` and full
`_source`) into the destination, in order. -/
def reindex (src dst : Collection) : Collection :=
  src.foldl (fun acc p => indexDoc acc p.1 p.2) dst

/-- The date-format check of the `operating_system_installation_date`
mapping, `yyyy-MM-dd||strict_date_optional_time||epoch_millis`, as both
scripts provision it (with no `ignore_malformed`): a (possibly negative)
all-digit epoch-milliseconds value, or an ISO date part `yyyy`, `yyyy-MM`,
or `yyyy-MM-dd` (digits, month 01-12, day 01-31). Timestamps extending the
date part with a `T` time section also parse in the store, but no input of
this development carries one. A string such as "Unknown" matches no format
and the store rejects the document at index time. -/
def validDateString (s : String) : Bool :=
  let cs := s.toList
  let epoch :=
    match cs with
    | '-' :: rest => decide (rest ≠ []) && rest.all Char.isDigit
    | _ => decide (cs ≠ []) && cs.all Char.isDigit
  let twoDigit := fun (a b : Char) (lo hi : Nat) =>
    a.isDigit && b.isDigit &&
      decide (lo ≤ (a.toNat - 48) * 10 + (b.toNat - 48)
        ∧ (a.toNat - 48) * 10 + (b.toNat - 48) ≤ hi)
  let datePart :=
    match cs with
    | [y1, y2, y3, y4] => [y1, y2, y3, y4].all Char.isDigit
    | [y1, y2, y3, y4, '-', m1, m2] =>
        [y1, y2, y3, y4].all Char.isDigit && twoDigit m1 m2 1 12
    | [y1, y2, y3, y4, '-', m1, m2, '-', d1, d2] =>
        [y1, y2, y3, y4].all Char.isDigit && twoDigit m1 m2 1 12 && twoDigit d1 d2 1 31
    | _ => false
  epoch || datePart

/-- Whether the provisioned mapping accepts a document at index time. Every
field this development uses is keyword-typed or dynamically mapped — those
accept any string, the empty one included — except the date-typed
`operating_system_installation_date`: a string value there must parse under
the mapping's formats; an absent or null value is accepted, and a numeric
value indexes as epoch milliseconds. -/
def mappingAccepts (d : Doc) : Bool :=
  match Doc.get d "operating_system_installation_date" with
  | some (Value.str s) => validDateString s
  | _ => true

/-- The full data path of the two scripts on a fresh cluster: the bulk load
indexes each row whose document the source mapping accepts (the store
rejects a document with a malformed date value action-by-action, and
`helpers.bulk` then raises, so the loader exits nonzero while the accepted
actions of the chunk remain applied); the accepted documents are reindexed
into the freshly provisioned (empty) destination — a no-op revalidation,
since the destination mapping is identical — then enriched and cleansed,
with the destination's explicit mapping in force. -/
def runPipeline (nowYear : Int) (rows : List Row) : Collection :=
  let src := (bulkLoad emptyState
    (rows.filter (fun r => mappingAccepts (rowToDoc r)))).coll
  let dst := reindex src []
  delete_bad_records destMappedFields (enrich_fields nowYear dst)

/-- The control flow of `transform_data.main`: the four stage calls run in
sequence and a raised exception in any stage propagates, aborting the rest. -/
def mainPipeline {α ε : Type} (provision copyStage enrichStage cleanseStage : α → Except ε α)
    (s : α) : Except ε α := do
  let s1 ← provision s
  let s2 ← copyStage s1
  let s3 ← enrichStage s2
  cleanseStage s3

/-- The existence-check behaviour of `index_data.ensure_index`: the call to
`es.indices.exists` sits in a `try`/`except Exception` that forces
`exists = False`, after which creation is attempted. Returns `true` iff
creation is attempted. -/
def ensure_index {ε : Type} (existsResult : Except ε Bool) : Bool :=
  let ex := match existsResult with
            | .error _ => false
            | .ok b => b
  !ex

/-- The existence-check behaviour of `transform_data.ensure_dest_index`:
no handler wraps `es.indices.exists`, so a failure propagates to the caller;
otherwise creation is attempted exactly when the index does not exist.
Returns `ok true` iff creation is attempted. -/
def ensure_dest_index {ε : Type} (existsResult : Except ε Bool) : Except ε Bool :=
  match existsResult with
  | .error e => .error e
  | .ok b => .ok !b

/-- The identifiers present in a collection, in order. -/
def ids (coll : Collection) : List DocId := coll.map Prod.fst

/-- End-to-end test row A: (host A, lifecycle EOL, installed 2010-01-01). -/
def rowA : Row :=
  [("hostname", "host-a"), ("operating_system_lifecycle_status", "EOL"),
   ("operating_system_installation_date", "2010-01-01")]

/-- End-to-end test row B: (host B, lifecycle Active, installation date
"Unknown"). -/
def rowB : Row :=
  [("hostname", "host-b"), ("operating_system_lifecycle_status", "Active"),
   ("operating_system_installation_date", "Unknown")]

/-- End-to-end test row C: (empty hostname, lifecycle EOL, installed
2020-01-01). -/
def rowC : Row :=
  [("hostname", ""), ("operating_system_lifecycle_status", "EOL"),
   ("operating_system_installation_date", "2020-01-01")]

/-! ### Association-list lemmas -/

theorem listGet_listSet_self {α : Type} (d : List (String × α)) (k : String) (v : α) :
    listGet (listSet d k v) k = some v := by
  induction d with
  | nil => simp [listGet, listSet]
  | cons p rest ih =>
      obtain ⟨a, b⟩ := p
      by_cases h : a = k
      · simp [listSet, h, listGet]
      · simp [listSet, h, listGet, ih]

theorem listGet_listSet_ne {α : Type} (d : List (String × α)) (k k' : String) (v : α)
    (h : k' ≠ k) : listGet (listSet d k v) k' = listGet d k' := by
  have hkk : ¬ k = k' := fun hh => h hh.symm
  induction d with
  | nil => simp [listGet, listSet, hkk]
  | cons p rest ih =>
      obtain ⟨a, b⟩ := p
      by_cases hak : a = k
      · subst hak
        simp [listSet, listGet, hkk]
      · simp [listSet, hak, listGet, ih]

theorem listSet_eq_self_of_get {α : Type} (d : List (String × α)) (k : String) (v : α)
    (h : listGet d k = some v) : listSet d k v = d := by
  induction d with
  | nil => simp [listGet] at h
  | cons p rest ih =>
      obtain ⟨a, b⟩ := p
      by_cases hak : a = k
      · subst hak
        simp [listGet] at h
        simp [listSet, h]
      · simp [listGet, hak] at h
        simp [listSet, hak, ih h]

/-! ### Helper lemmas about the enrichment script -/

theorem enrichDoc_get_risk (nowYear : Int) (d : Doc) :
    (enrichDoc nowYear d).get "risk_level" = some (Value.str (riskLevel d)) := by
  show listGet (listSet (listSet d _ _) _ _) _ = _
  rw [listGet_listSet_ne _ _ _ _ (by decide), listGet_listSet_self]

theorem systemAgeValue_set_other (nowYear : Int) (d : Doc) (k : String) (v : Value)
    (h : k ≠ "operating_system_installation_date") :
    systemAgeValue nowYear (Doc.set d k v) = systemAgeValue nowYear d := by
  unfold systemAgeValue
  rw [show (Doc.set d k v).get "operating_system_installation_date"
        = d.get "operating_system_installation_date" from
      listGet_listSet_ne _ _ _ _ (fun hh => h hh.symm)]

theorem riskLevel_set_other (d : Doc) (k : String) (v : Value)
    (h : k ≠ "operating_system_lifecycle_status") :
    riskLevel (Doc.set d k v) = riskLevel d := by
  unfold riskLevel
  rw [show (Doc.set d k v).get "operating_system_lifecycle_status"
        = d.get "operating_system_lifecycle_status" from
      listGet_listSet_ne _ _ _ _ (fun hh => h hh.symm)]

theorem enrichDoc_get_age (nowYear : Int) (d : Doc) :
    (enrichDoc nowYear d).get "system_age_years" = some (systemAgeValue nowYear d) := by
  show listGet (listSet (listSet d _ _) _ _) _ = _
  rw [listGet_listSet_self,
      systemAgeValue_set_other nowYear d "risk_level" _ (by decide)]

theorem enrichDoc_get_other (nowYear : Int) (d : Doc) (k : String)
    (h1 : k ≠ "risk_level") (h2 : k ≠ "system_age_years") :
    (enrichDoc nowYear d).get k = d.get k := by
  show listGet (listSet (listSet d _ _) _ _) _ = _
  rw [listGet_listSet_ne _ _ _ _ h2, listGet_listSet_ne _ _ _ _ h1]
  rfl

theorem riskLevel_of_get_none (d : Doc)
    (h : d.get "operating_system_lifecycle_status" = none) : riskLevel d = "Low" := by
  unfold riskLevel
  rw [h]

theorem riskLevel_of_get_some (d : Doc) (v : Value)
    (h : d.get "operating_system_lifecycle_status" = some v) :
    riskLevel d = if v = Value.null then "Low"
      else if strLower (valueToString v) = "eol" ∨ strLower (valueToString v) = "eos"
        then "High" else "Low" := by
  unfold riskLevel
  rw [h]

theorem riskLevel_eq_high_iff (d : Doc) :
    riskLevel d = "High" ↔
      ∃ v, d.get "operating_system_lifecycle_status" = some v ∧ v ≠ Value.null
        ∧ (strLower (valueToString v) = "eol" ∨ strLower (valueToString v) = "eos") := by
  cases h : d.get "operating_system_lifecycle_status" with
  | none =>
      rw [riskLevel_of_get_none d h]
      constructor
      · intro hh; exact absurd hh (by decide)
      · rintro ⟨w, hw, -, -⟩
        exact absurd hw (by simp)
  | some v =>
      rw [riskLevel_of_get_some d v h]
      by_cases hv : v = Value.null
      · rw [if_pos hv]
        constructor
        · intro hh; exact absurd hh (by decide)
        · rintro ⟨w, hw, hwn, -⟩
          injection hw with hw
          subst hw
          exact absurd hv hwn
      · rw [if_neg hv]
        by_cases hc : strLower (valueToString v) = "eol" ∨ strLower (valueToString v) = "eos"
        · rw [if_pos hc]
          exact ⟨fun _ => ⟨v, rfl, hv, hc⟩, fun _ => rfl⟩
        · rw [if_neg hc]
          constructor
          · intro hh; exact absurd hh (by decide)
          · rintro ⟨w, hw, -, hwc⟩
            injection hw with hw
            subst hw
            exact absurd hwc hc

theorem riskLevel_high_or_low (d : Doc) :
    riskLevel d = "High" ∨ riskLevel d = "Low" := by
  cases h : d.get "operating_system_lifecycle_status" with
  | none => right; exact riskLevel_of_get_none d h
  | some v =>
      rw [riskLevel_of_get_some d v h]
      by_cases hv : v = Value.null
      · right; rw [if_pos hv]
      · rw [if_neg hv]
        by_cases hc : strLower (valueToString v) = "eol" ∨ strLower (valueToString v) = "eos"
        · left; rw [if_pos hc]
        · right; rw [if_neg hc]

theorem systemAgeValue_sentinel (nowYear : Int) (d : Doc)
    (h : (d.get "operating_system_installation_date").getD Value.null = Value.null
        ∨ (d.get "operating_system_installation_date").getD Value.null = Value.str "Unknown") :
    systemAgeValue nowYear d = Value.null := by
  simp only [systemAgeValue]
  rw [if_pos h]

theorem systemAgeValue_value (nowYear : Int) (d : Doc) (v : Value)
    (hg : d.get "operating_system_installation_date" = some v)
    (h1 : v ≠ Value.null) (h2 : v ≠ Value.str "Unknown") :
    systemAgeValue nowYear d =
      match yearOfDateString (valueToString v) with
      | some installYear =>
          Value.int (if nowYear - installYear < 0 then 0 else nowYear - installYear)
      | none => Value.null := by
  simp only [systemAgeValue, hg, Option.getD_some]
  rw [if_neg (by rintro (hh | hh); exact h1 hh; exact h2 hh)]

theorem riskLevel_congr (d e : Doc)
    (h : d.get "operating_system_lifecycle_status" = e.get "operating_system_lifecycle_status") :
    riskLevel d = riskLevel e := by
  unfold riskLevel
  rw [h]

theorem systemAgeValue_congr (nowYear : Int) (d e : Doc)
    (h : d.get "operating_system_installation_date"
        = e.get "operating_system_installation_date") :
    systemAgeValue nowYear d = systemAgeValue nowYear e := by
  simp only [systemAgeValue, h]

theorem enrichDoc_idem (nowYear : Int) (d : Doc) :
    enrichDoc nowYear (enrichDoc nowYear d) = enrichDoc nowYear d := by
  have hr : riskLevel (enrichDoc nowYear d) = riskLevel d :=
    riskLevel_congr _ d (enrichDoc_get_other nowYear d _ (by decide) (by decide))
  have ha : systemAgeValue nowYear (enrichDoc nowYear d) = systemAgeValue nowYear d :=
    systemAgeValue_congr nowYear _ d (enrichDoc_get_other nowYear d _ (by decide) (by decide))
  have hgr : (enrichDoc nowYear d).get "risk_level"
      = some (Value.str (riskLevel (enrichDoc nowYear d))) := by
    rw [enrichDoc_get_risk, hr]
  have hga : (enrichDoc nowYear d).get "system_age_years"
      = some (systemAgeValue nowYear (enrichDoc nowYear d)) := by
    rw [enrichDoc_get_age, ha]
  have hset1 : Doc.set (enrichDoc nowYear d) "risk_level"
      (Value.str (riskLevel (enrichDoc nowYear d))) = enrichDoc nowYear d :=
    listSet_eq_self_of_get _ _ _ hgr
  show Doc.set (Doc.set (enrichDoc nowYear d) "risk_level"
      (Value.str (riskLevel (enrichDoc nowYear d)))) "system_age_years"
      (systemAgeValue nowYear (Doc.set (enrichDoc nowYear d) "risk_level"
        (Value.str (riskLevel (enrichDoc nowYear d))))) = enrichDoc nowYear d
  rw [hset1]
  exact listSet_eq_self_of_get _ _ _ hga

/-! ### Claim theorems -/

/-- Claim C1: after the enrichment script runs on a document, `risk_level` is
the string "High" exactly when the document's
`operating_system_lifecycle_status` is present with a non-null value whose
string form lowercases to "eol" or "eos", and is the string "Low" in every
other case (missing or null field included); in particular the field is
never left null or absent. -/
theorem c1_risk_level_rule (nowYear : Int) (d : Doc) :
    ((enrichDoc nowYear d).get "risk_level" = some (Value.str "High")
        ∨ (enrichDoc nowYear d).get "risk_level" = some (Value.str "Low"))
    ∧ ((enrichDoc nowYear d).get "risk_level" = some (Value.str "High")
        ↔ ∃ v, d.get "operating_system_lifecycle_status" = some v ∧ v ≠ Value.null
            ∧ (strLower (valueToString v) = "eol" ∨ strLower (valueToString v) = "eos")) := by
  rw [enrichDoc_get_risk]
  constructor
  · rcases riskLevel_high_or_low d with h | h <;> rw [h]
    · left; rfl
    · right; rfl
  · rw [← riskLevel_eq_high_iff]
    constructor
    · intro h
      injection h with h
      injection h
    · intro h; rw [h]

/-- Claim C2: after enrichment, `system_age_years` is null when the
installation date is missing, null, or the literal "Unknown"; otherwise the
first four characters of the date's string form are parsed as an integer
installation year and the field holds `max 0 (nowYear - installYear)` (with
`nowYear` the fixed `params.now_year` of the stage invocation), and any
parse failure again yields null — the transform is total and never aborts. -/
theorem c2_system_age_rule (nowYear : Int) (d : Doc) :
    (((d.get "operating_system_installation_date").getD Value.null = Value.null
        ∨ (d.get "operating_system_installation_date").getD Value.null = Value.str "Unknown") →
      (enrichDoc nowYear d).get "system_age_years" = some Value.null)
    ∧ (∀ v, d.get "operating_system_installation_date" = some v → v ≠ Value.null →
        v ≠ Value.str "Unknown" →
        (enrichDoc nowYear d).get "system_age_years" =
          some (match yearOfDateString (valueToString v) with
                | some installYear => Value.int (max 0 (nowYear - installYear))
                | none => Value.null)) := by
  constructor
  · intro h
    rw [enrichDoc_get_age, systemAgeValue_sentinel nowYear d h]
  · intro v hg h1 h2
    rw [enrichDoc_get_age, systemAgeValue_value nowYear d v hg h1 h2]
    cases hy : yearOfDateString (valueToString v) with
    | none => rfl
    | some iy =>
        show some (Value.int (if nowYear - iy < 0 then 0 else nowYear - iy))
          = some (Value.int (max 0 (nowYear - iy)))
        have harith : (if nowYear - iy < 0 then (0 : Int) else nowYear - iy)
            = max 0 (nowYear - iy) := by
          rcases lt_or_le (nowYear - iy) 0 with hlt | hle
          · rw [if_pos hlt, max_eq_left hlt.le]
          · rw [if_neg (not_lt.mpr hle), max_eq_right hle]
        rw [harith]

/-- Witness for C2: with the stage year 2024, the date "2015-06-01" yields an
age of 9 years, and the sentinel "Unknown" yields null. -/
theorem c2_system_age_rule_witness :
    Doc.get (enrichDoc 2024 [("operating_system_installation_date", Value.str "2015-06-01")])
        "system_age_years" = some (Value.int 9)
    ∧ Doc.get (enrichDoc 2024 [("operating_system_installation_date", Value.str "Unknown")])
        "system_age_years" = some Value.null := by
  constructor
  · have h := (c2_system_age_rule 2024
        [("operating_system_installation_date", Value.str "2015-06-01")]).2
        (Value.str "2015-06-01") (by decide) (by decide) (by decide)
    rw [h]
    decide
  · exact (c2_system_age_rule 2024
      [("operating_system_installation_date", Value.str "Unknown")]).1 (by decide)

/-- Claim C3: the enrichment pass is idempotent — applying the update script
twice to a collection (with the same fixed `now_year`) gives the same
documents as applying it once, because both derived fields are recomputed
from the untouched source fields. -/
theorem c3_enrich_idempotent (nowYear : Int) (coll : Collection) :
    enrich_fields nowYear (enrich_fields nowYear coll) = enrich_fields nowYear coll := by
  unfold enrich_fields
  rw [List.map_map]
  apply List.map_congr_left
  intro p _
  show (p.1, enrichDoc nowYear (enrichDoc nowYear p.2)) = (p.1, enrichDoc nowYear p.2)
  rw [enrichDoc_idem]

/-- Claim C10: the enrichment script only writes `risk_level` and
`system_age_years`; any other field reads the same before and after. -/
theorem c10_enrich_frame (nowYear : Int) (d : Doc) (k : String)
    (h1 : k ≠ "risk_level") (h2 : k ≠ "system_age_years") :
    (enrichDoc nowYear d).get k = d.get k :=
  enrichDoc_get_other nowYear d k h1 h2

/-- Witness for C10 at the `hostname` field of a concrete document. -/
theorem c10_enrich_frame_witness :
    ("hostname" : String) ≠ "risk_level"
    ∧ Doc.get (enrichDoc 2024 [("hostname", Value.str "h1")]) "hostname"
        = Doc.get [("hostname", Value.str "h1")] "hostname" :=
  ⟨by decide,
   c10_enrich_frame 2024 [("hostname", Value.str "h1")] "hostname" (by decide) (by decide)⟩

/-- Counterexample to claim C4: a document whose `hostname` field is present
but equal to the empty string is not deleted by `delete_bad_records` — the
empty string is an indexed keyword value, so the `exists(hostname)` clause
matches the document and `must_not exists` does not — contradicting the
claim that every document without a non-empty hostname is removed. -/
theorem c4_counterexample :
    Doc.get [("hostname", Value.str "")] "hostname" = some (Value.str "")
    ∧ delete_bad_records destMappedFields [(DocId.auto 0, [("hostname", Value.str "")])]
      = [(DocId.auto 0, [("hostname", Value.str "")])] := by
  constructor
  · rfl
  · decide

/-- Claim C4 (amended): the Cleansing Stage deletes every document whose
`hostname` field has no indexed value (missing or null) regardless of its
provider value, and every surviving document has a non-null — though
possibly empty — `hostname` value. -/
theorem c4_cleansing_hostname (mapped : List String) (coll : Collection) (p : DocId × Doc) :
    (p ∈ coll → fieldExists mapped p.2 "hostname" = false →
      p ∉ delete_bad_records mapped coll)
    ∧ (p ∈ delete_bad_records mapped coll → fieldExists mapped p.2 "hostname" = true) := by
  constructor
  · intro _ hex hcontra
    have h2 := (List.mem_filter.mp hcontra).2
    simp [deleteMatches, hex] at h2
  · intro hmem
    have h2 := (List.mem_filter.mp hmem).2
    cases hfe : fieldExists mapped p.2 "hostname" with
    | true => rfl
    | false =>
        simp [deleteMatches, hfe] at h2

/-- Witness for C4 (amended): a document with no `hostname` field at all is
deleted even though its provider is a perfectly normal value. -/
theorem c4_cleansing_hostname_witness :
    (DocId.auto 0, ([("operating_system_provider", Value.str "Microsoft")] : Doc))
      ∉ delete_bad_records destMappedFields
          [(DocId.auto 0, [("operating_system_provider", Value.str "Microsoft")])] :=
  (c4_cleansing_hostname destMappedFields
      [(DocId.auto 0, [("operating_system_provider", Value.str "Microsoft")])]
      (DocId.auto 0, [("operating_system_provider", Value.str "Microsoft")])).1
    (by decide) (by decide)

/-- Claim C5 (code bug evaluation): the delete query's `term` clause targets
`operating_system_provider.keyword`, which is not a field of the destination
mapping created by `ensure_dest_index` — the provider field is mapped as
`keyword` directly, with no `.keyword` multi-field, and dynamic mapping never
adds a subfield under an explicitly mapped parent — so the clause matches no
document, and a document with a valid hostname and provider exactly
"Unknown" survives the Cleansing Stage, contradicting the module's own
docstring ("Delete records with missing hostname OR
operating_system_provider == 'Unknown'"). -/
theorem c5_unknown_provider_survives :
    termMatches destMappedFields
      [("hostname", Value.str "h1"), ("operating_system_provider", Value.str "Unknown")]
      "operating_system_provider.keyword" "Unknown" = false
    ∧ delete_bad_records destMappedFields
        [(DocId.named "h1",
          [("hostname", Value.str "h1"), ("operating_system_provider", Value.str "Unknown")])]
      = [(DocId.named "h1",
          [("hostname", Value.str "h1"), ("operating_system_provider", Value.str "Unknown")])] := by
  constructor
  · decide
  · decide

theorem except_bind_ok {α ε : Type} (a : α) (f : α → Except ε α) :
    (Except.ok a >>= f) = f a := rfl

theorem except_bind_error {α ε : Type} (e : ε) (f : α → Except ε α) :
    ((Except.error e : Except ε α) >>= f) = Except.error e := rfl

/-- Claim C8: `main` sequences the stages as Provision, Copy, Enrich,
Cleanse; when all stages succeed the result is the cleanse of the enrich of
the copy of the provision (in that order), and a failure in any stage makes
the whole pipeline fail with that error, independently of whatever the later
stages would have done — no later stage runs after a failed one. -/
theorem c8_pipeline_order {α ε : Type}
    (provision copyStage enrichStage cleanseStage : α → Except ε α) (s : α) :
    (∀ s1 s2 s3, provision s = Except.ok s1 → copyStage s1 = Except.ok s2 →
        enrichStage s2 = Except.ok s3 →
        mainPipeline provision copyStage enrichStage cleanseStage s = cleanseStage s3)
    ∧ (∀ e, provision s = Except.error e →
        ∀ c2 e2 k2, mainPipeline provision c2 e2 k2 s = Except.error e)
    ∧ (∀ s1 e, provision s = Except.ok s1 → copyStage s1 = Except.error e →
        ∀ e2 k2, mainPipeline provision copyStage e2 k2 s = Except.error e)
    ∧ (∀ s1 s2 e, provision s = Except.ok s1 → copyStage s1 = Except.ok s2 →
        enrichStage s2 = Except.error e →
        ∀ k2, mainPipeline provision copyStage enrichStage k2 s = Except.error e) := by
  refine ⟨?_, ?_, ?_, ?_⟩
  · intro s1 s2 s3 h1 h2 h3
    unfold mainPipeline
    rw [h1, except_bind_ok, h2, except_bind_ok, h3, except_bind_ok]
  · intro e h1 c2 e2 k2
    unfold mainPipeline
    rw [h1, except_bind_error]
  · intro s1 e h1 h2 e2 k2
    unfold mainPipeline
    rw [h1, except_bind_ok, h2, except_bind_error]
  · intro s1 s2 e h1 h2 h3 k2
    unfold mainPipeline
    rw [h1, except_bind_ok, h2, except_bind_ok, h3, except_bind_error]

/-- Witness for C8: with four succeeding stages over `Nat` states the
pipeline threads the state through all four in order. -/
theorem c8_pipeline_order_witness :
    mainPipeline (fun n => Except.ok (n + 1)) (fun n => Except.ok (n + 1))
      (fun n => Except.ok (n + 1)) (fun n => Except.ok (n + 1)) (0 : Nat)
      = (Except.ok 4 : Except String Nat) :=
  ((c8_pipeline_order (fun n => Except.ok (n + 1)) (fun n => Except.ok (n + 1))
      (fun n => Except.ok (n + 1)) (fun n => Except.ok (n + 1)) 0).1 1 2 3
    rfl rfl rfl).trans rfl

/-- Counterexample to claim C9: in the loader's provisioner `ensure_index`,
a failing existence check is swallowed by `except Exception: exists = False`,
so the failure is treated exactly as "the collection does not exist" and the
provisioner proceeds to attempt creation (`true` = creation attempted),
reporting nothing to the caller. -/
theorem c9_counterexample :
    ensure_index (Except.error "connectivity fault" : Except String Bool) = true := rfl

/-- Claim C9 (amended): when the existence check fails, the transform
script's provisioner `ensure_dest_index` reports the failure to its caller
and does not attempt creation, whereas the loader's provisioner
`ensure_index` silently treats the failure as "does not exist" and proceeds
to attempt creation. -/
theorem c9_provisioner_failure {ε : Type} (e : ε) :
    ensure_dest_index (Except.error e : Except ε Bool) = Except.error e
    ∧ ensure_index (Except.error e : Except ε Bool) = true :=
  ⟨rfl, rfl⟩

/-! ### Bulk-load lemmas -/

theorem any_id_eq_true_iff (coll : Collection) (i : DocId) :
    (coll.any fun p => decide (p.1 = i)) = true ↔ i ∈ ids coll := by
  simp [ids, List.any_eq_true, List.mem_map]

theorem indexDoc_present (coll : Collection) (i : DocId) (d : Doc) (h : i ∈ ids coll) :
    ids (indexDoc coll i d) = ids coll ∧ (indexDoc coll i d).length = coll.length := by
  unfold indexDoc
  rw [if_pos ((any_id_eq_true_iff coll i).mpr h)]
  constructor
  · unfold ids
    rw [List.map_map]
    apply List.map_congr_left
    intro p _
    by_cases hpi : p.1 = i
    · simp [Function.comp, hpi]
    · simp [Function.comp, hpi]
  · rw [List.length_map]

theorem indexDoc_absent (coll : Collection) (i : DocId) (d : Doc) (h : i ∉ ids coll) :
    indexDoc coll i d = coll ++ [(i, d)] := by
  unfold indexDoc
  rw [if_neg (fun hc => h ((any_id_eq_true_iff coll i).mp hc))]

theorem ids_indexDoc_superset (coll : Collection) (i j : DocId) (d : Doc)
    (h : j ∈ ids coll) : j ∈ ids (indexDoc coll i d) := by
  by_cases hi : i ∈ ids coll
  · rw [(indexDoc_present coll i d hi).1]; exact h
  · rw [indexDoc_absent coll i d hi]
    unfold ids at h ⊢
    rw [List.map_append]
    exact List.mem_append_left _ h

theorem mem_ids_indexDoc_self (coll : Collection) (i : DocId) (d : Doc) :
    i ∈ ids (indexDoc coll i d) := by
  by_cases hi : i ∈ ids coll
  · rw [(indexDoc_present coll i d hi).1]; exact hi
  · rw [indexDoc_absent coll i d hi]
    unfold ids
    rw [List.map_append]
    exact List.mem_append_right _ (by simp)

theorem ids_indexAction_superset (st : LoadState) (row : Row) (j : DocId)
    (h : j ∈ ids st.coll) : j ∈ ids (indexAction st row).coll := by
  unfold indexAction
  cases hrow : docIdOf row with
  | some i => exact ids_indexDoc_superset st.coll (DocId.named i) j _ h
  | none =>
      unfold ids at h ⊢
      show j ∈ (st.coll ++ [(DocId.auto st.nextAuto, rowToDoc row)]).map Prod.fst
      rw [List.map_append]
      exact List.mem_append_left _ h

theorem ids_bulkLoad_superset (rows : List Row) (st : LoadState) (j : DocId)
    (h : j ∈ ids st.coll) : j ∈ ids (bulkLoad st rows).coll := by
  induction rows generalizing st with
  | nil => exact h
  | cons r rest ih =>
      show j ∈ ids (bulkLoad (indexAction st r) rest).coll
      exact ih (indexAction st r) (ids_indexAction_superset st r j h)

theorem named_mem_of_bulkLoad (rows : List Row) (st : LoadState) (r : Row) (t : String)
    (hr : r ∈ rows) (ht : docIdOf r = some t) :
    DocId.named t ∈ ids (bulkLoad st rows).coll := by
  induction rows generalizing st with
  | nil => cases hr
  | cons r0 rest ih =>
      rcases List.mem_cons.mp hr with h0 | h0
      · subst h0
        show DocId.named t ∈ ids (bulkLoad (indexAction st r) rest).coll
        apply ids_bulkLoad_superset
        unfold indexAction
        rw [ht]
        exact mem_ids_indexDoc_self st.coll (DocId.named t) (rowToDoc r)
      · show DocId.named t ∈ ids (bulkLoad (indexAction st r0) rest).coll
        exact ih (indexAction st r0) h0

theorem bulkLoad_preserves (rows : List Row) (st : LoadState)
    (h : ∀ r ∈ rows, ∃ t, docIdOf r = some t ∧ DocId.named t ∈ ids st.coll) :
    ids (bulkLoad st rows).coll = ids st.coll
    ∧ (bulkLoad st rows).coll.length = st.coll.length := by
  induction rows generalizing st with
  | nil => exact ⟨rfl, rfl⟩
  | cons r rest ih =>
      obtain ⟨t, ht, hmem⟩ := h r (List.mem_cons_self r rest)
      have hstep : ids (indexAction st r).coll = ids st.coll
          ∧ (indexAction st r).coll.length = st.coll.length := by
        unfold indexAction
        rw [ht]
        exact indexDoc_present st.coll (DocId.named t) (rowToDoc r) hmem
      have hrest : ∀ r' ∈ rest, ∃ t', docIdOf r' = some t'
          ∧ DocId.named t' ∈ ids (indexAction st r).coll := by
        intro r' hr'
        obtain ⟨t', ht', hm'⟩ := h r' (List.mem_cons_of_mem r hr')
        exact ⟨t', ht', by rw [hstep.1]; exact hm'⟩
      have hloop := ih (indexAction st r) hrest
      constructor
      · show ids (bulkLoad (indexAction st r) rest).coll = ids st.coll
        exact hloop.1.trans hstep.1
      · show (bulkLoad (indexAction st r) rest).coll.length = st.coll.length
        exact hloop.2.trans hstep.2

/-- Counterexample to claim C7: a row whose hostname is empty after trimming
gets a fresh server-assigned id on every load, so loading the one-row set
twice into an empty collection produces two documents while loading it once
produces one — the claimed "no duplicates" consequence fails for such rows. -/
theorem c7_counterexample :
    (bulkLoad emptyState [[("hostname", "")]]).coll.length = 1
    ∧ (bulkLoad (bulkLoad emptyState [[("hostname", "")]]) [[("hostname", "")]]).coll.length
        = 2 := by
  constructor
  · decide
  · decide

/-- Claim C7 (amended): a loaded row's document is keyed by its trimmed
hostname whenever that trimmed value is non-empty (empty-after-trimming rows
get a server-assigned key instead), and when every row of the set has a
non-empty trimmed hostname, loading the same row set twice into an empty
collection produces exactly as many documents as loading it once. -/
theorem c7_load_idempotent (rows : List Row)
    (h : ∀ r ∈ rows, (docIdOf r).isSome = true) :
    (∀ r ∈ rows, ∀ s, listGet r "hostname" = some s → strTrim s ≠ "" →
        docIdOf r = some (strTrim s)
          ∧ DocId.named (strTrim s) ∈ ids (bulkLoad emptyState rows).coll)
    ∧ (bulkLoad (bulkLoad emptyState rows) rows).coll.length
        = (bulkLoad emptyState rows).coll.length := by
  constructor
  · intro r hr s hs hne
    have hid : docIdOf r = some (strTrim s) := by
      simp only [docIdOf, hs, Option.getD_some]
      rw [if_neg hne]
    exact ⟨hid, named_mem_of_bulkLoad rows emptyState r (strTrim s) hr hid⟩
  · apply (bulkLoad_preserves rows (bulkLoad emptyState rows) ?_).2
    intro r hr
    obtain ⟨t, ht⟩ := Option.isSome_iff_exists.mp (h r hr)
    exact ⟨t, ht, named_mem_of_bulkLoad rows emptyState r t hr ht⟩

/-- Witness for C7 (amended) on the one-row set with hostname " a ": the id
is the trimmed hostname and a second load adds no document. -/
theorem c7_load_idempotent_witness :
    (docIdOf [("hostname", " a ")] = some (strTrim " a ")
      ∧ DocId.named (strTrim " a ") ∈ ids (bulkLoad emptyState [[("hostname", " a ")]]).coll)
    ∧ (bulkLoad (bulkLoad emptyState [[("hostname", " a ")]]) [[("hostname", " a ")]]).coll.length
        = (bulkLoad emptyState [[("hostname", " a ")]]).coll.length :=
  ⟨(c7_load_idempotent [[("hostname", " a ")]] (by decide)).1 [("hostname", " a ")]
      (by decide) " a " (by decide) (by decide),
   (c7_load_idempotent [[("hostname", " a ")]] (by decide)).2⟩

/-- Counterexample to claim C6: the destination never contains host B — row
B's installation date "Unknown" parses under none of the formats of the
date-typed mapping both scripts provision (no `ignore_malformed`), so the
store rejects it at index time and no document of the pipeline output
carries B's id, let alone one with a Low risk and null age. -/
theorem c6_counterexample :
    mappingAccepts (rowToDoc rowB) = false
    ∧ DocId.named "host-b" ∉ ids (runPipeline 2024 [rowA, rowB, rowC]) := by
  constructor
  · decide
  · decide

/-- Claim C6 (amended): row B is rejected at index time by the date-typed
mapping (the loader's bulk call reports the failure), and for any stage year
from 2021 on the destination ends with exactly two documents — A, enriched
to `risk_level = "High"` with the positive age `y - 2010`, and the
empty-hostname row C, which survives cleansing because its hostname holds
the (indexed) empty string and is enriched to `"High"` with age `y - 2020`;
B reaches no collection. -/
theorem c6_end_to_end (y : Int) (h : 2021 ≤ y) :
    mappingAccepts (rowToDoc rowB) = false
    ∧ runPipeline y [rowA, rowB, rowC] =
      [(DocId.named "host-a",
        [("hostname", Value.str "host-a"),
         ("operating_system_lifecycle_status", Value.str "EOL"),
         ("operating_system_installation_date", Value.str "2010-01-01"),
         ("risk_level", Value.str "High"),
         ("system_age_years", Value.int (y - 2010))]),
       (DocId.auto 0,
        [("hostname", Value.str ""),
         ("operating_system_lifecycle_status", Value.str "EOL"),
         ("operating_system_installation_date", Value.str "2020-01-01"),
         ("risk_level", Value.str "High"),
         ("system_age_years", Value.int (y - 2020))])]
    ∧ (0 : Int) < y - 2010 := by
  refine ⟨by decide, ?_, by omega⟩
  have hA : enrichDoc y (rowToDoc rowA)
      = [("hostname", Value.str "host-a"),
         ("operating_system_lifecycle_status", Value.str "EOL"),
         ("operating_system_installation_date", Value.str "2010-01-01"),
         ("risk_level", Value.str "High"),
         ("system_age_years", Value.int (if y - 2010 < 0 then 0 else y - 2010))] := rfl
  have hC : enrichDoc y (rowToDoc rowC)
      = [("hostname", Value.str ""),
         ("operating_system_lifecycle_status", Value.str "EOL"),
         ("operating_system_installation_date", Value.str "2020-01-01"),
         ("risk_level", Value.str "High"),
         ("system_age_years", Value.int (if y - 2020 < 0 then 0 else y - 2020))] := rfl
  have h1 : (if y - 2010 < 0 then (0 : Int) else y - 2010) = y - 2010 := if_neg (by omega)
  have h3 : (if y - 2020 < 0 then (0 : Int) else y - 2020) = y - 2020 := if_neg (by omega)
  show delete_bad_records destMappedFields (enrich_fields y
      (reindex (bulkLoad emptyState
        ([rowA, rowB, rowC].filter (fun r => mappingAccepts (rowToDoc r)))).coll [])) = _
  rw [show reindex (bulkLoad emptyState
        ([rowA, rowB, rowC].filter (fun r => mappingAccepts (rowToDoc r)))).coll []
      = [(DocId.named "host-a", rowToDoc rowA), (DocId.auto 0, rowToDoc rowC)] from by decide]
  show delete_bad_records destMappedFields
      [(DocId.named "host-a", enrichDoc y (rowToDoc rowA)),
       (DocId.auto 0, enrichDoc y (rowToDoc rowC))] = _
  rw [hA, hC, h1, h3]
  rfl

/-- Witness for C6 (amended) at stage year 2024: ages 14 and 4. -/
theorem c6_end_to_end_witness :
    mappingAccepts (rowToDoc rowB) = false
    ∧ runPipeline 2024 [rowA, rowB, rowC] =
      [(DocId.named "host-a",
        [("hostname", Value.str "host-a"),
         ("operating_system_lifecycle_status", Value.str "EOL"),
         ("operating_system_installation_date", Value.str "2010-01-01"),
         ("risk_level", Value.str "High"),
         ("system_age_years", Value.int (2024 - 2010))]),
       (DocId.auto 0,
        [("hostname", Value.str ""),
         ("operating_system_lifecycle_status", Value.str "EOL"),
         ("operating_system_installation_date", Value.str "2020-01-01"),
         ("risk_level", Value.str "High"),
         ("system_age_years", Value.int (2024 - 2020))])]
    ∧ (0 : Int) < 2024 - 2010 :=
  c6_end_to_end 2024 (by decide)

end ItAssets
